import Mathlib

/-!
Shallow embedding of `crates/endpoints/src/rag.rs` (LlamaEdge `endpoints` crate)
and of the serde-derived JSON wire contract of its types.

Modelling conventions:
* Rust `String` is Lean `String`; `Vec<T>` is `List T`; `Option<T>` is `Option T`.
* Rust `u64` and `usize` are `Nat`; where a range matters (deserializing an
  unsigned counter from JSON) the bound `2^64` is explicit.
* Rust `f64` / `f32` are modelled as `ℚ`: the code only copies these values
  (no arithmetic), and JSON numbers are modelled as exact rationals.
* serde_json values are the inductive `Json` below; a struct's serializer is
  written out field by field following the serde derive semantics of the
  struct's declaration: fields in declaration order, `rename` applied,
  `skip_serializing_if = "Option::is_none"` dropping the key when the field
  is `none`, and a plain `Option` field serializing as `null` when `none`.
  A serde-derived deserializer looks fields up by key, fails on a missing
  required field or an ill-typed value, and reads a missing or `null`
  optional field as `none`.
* `HashMap<String, f64>` is modelled as an association list `List (String × ℚ)`
  (a map together with its iteration order).
-/

/-- JSON values, with numbers as exact rationals (serde_json round-trips
finite numbers exactly; NaN and infinities are not valid JSON and out of
scope). -/
inductive Json where
  | null : Json
  | bool : Bool → Json
  | num : ℚ → Json
  | str : String → Json
  | arr : List Json → Json
  | obj : List (String × Json) → Json
deriving Repr

/-- Look a key up in a JSON object's field list: first binding wins, as in
serde_json map access. -/
def Json.lookup : List (String × Json) → String → Option Json
  | [], _ => none
  | (k, v) :: rest, key => if key = k then some v else Json.lookup rest key

/-- Emit one struct field under serde
`#[serde(skip_serializing_if = "Option::is_none")]`: the key/value pair is
present exactly when the field is `some`. -/
def optCons {α : Type} (k : String) (enc : α → Json) :
    Option α → List (String × Json) → List (String × Json)
  | none, rest => rest
  | some a, rest => (k, enc a) :: rest

/-- serde deserialization of an `Option` field from its looked-up value:
a missing key or an explicit `null` reads as `none`; any other value must
parse with the payload parser. -/
def optParseStep {α : Type} (p : Json → Option α) : Option Json → Option (Option α)
  | none => some none
  | some Json.null => some none
  | some v => (p v).map some

/-- serde deserialization of a required field: the key must be present and
its value must parse. -/
def reqParseStep {α : Type} (p : Json → Option α) : Option Json → Option α
  | none => none
  | some v => p v

/-- Parse each element of a list, failing on the first element the parser
rejects (serde sequence deserialization). -/
def mapMOpt {α β : Type} (f : α → Option β) : List α → Option (List β)
  | [] => some []
  | x :: xs => (f x).bind fun y => (mapMOpt f xs).map fun ys => y :: ys

/-- Parse a JSON string. -/
def parseStr : Json → Option String
  | Json.str s => some s
  | _ => none

/-- Parse a JSON number into a Rust `f64`/`f32` slot (modelled as ℚ). -/
def parseNum : Json → Option ℚ
  | Json.num q => some q
  | _ => none

/-- Parse a JSON number into a Rust `u64` slot: it must be an integer,
nonnegative, and below `2^64`; anything else (in particular any negative
number) is a deserialization error, exactly as in serde_json. -/
def parseU64 : Json → Option Nat
  | Json.num q =>
      if 0 ≤ q.num ∧ q.den = 1 ∧ q.num < 2 ^ 64 then some q.num.toNat else none
  | _ => none

/-- Parse a JSON boolean. -/
def parseBool : Json → Option Bool
  | Json.bool b => some b
  | _ => none

/-- Parse a JSON array of strings (`Vec<String>`). -/
def parseStrList : Json → Option (List String)
  | Json.arr xs => mapMOpt parseStr xs
  | _ => none

/-- Parse a JSON array, keeping the elements as raw JSON (for lists of
opaque values). -/
def parseJsonArr : Json → Option (List Json)
  | Json.arr xs => some xs
  | _ => none

/-- Parse an opaque value: any JSON value is accepted unchanged. -/
def parseOpaque : Json → Option Json := fun j => some j

/-- Parse a JSON object into a string-to-number map
(`HashMap<String, f64>` modelled as an association list). -/
def parseNumMap : Json → Option (List (String × ℚ))
  | Json.obj kvs => mapMOpt (fun kv => (parseNum kv.2).map (fun q => (kv.1, q))) kvs
  | _ => none

/-! ### Compact JSON rendering (serde_json `to_string`)

Strings are escaped as serde_json does (`"` and `\` escaped, control
characters via the short escapes or `\u00XX`). Integral numbers render
exactly; non-integral number formatting (shortest-float printing) is not
modelled, and no claim depends on it. -/

/-- One hexadecimal digit (lower case), for `\u00XX` escapes. -/
def hexDigit (n : Nat) : String :=
  String.singleton (if n < 10 then Char.ofNat (48 + n) else Char.ofNat (87 + n))

/-- Escape one character as serde_json does inside a JSON string literal. -/
def escapeChar (c : Char) : String :=
  if c = Char.ofNat 34 then "\\\""
  else if c = '\\' then "\\\\"
  else if c = Char.ofNat 8 then "\\b"
  else if c = Char.ofNat 12 then "\\f"
  else if c = '\n' then "\\n"
  else if c = '\r' then "\\r"
  else if c = '\t' then "\\t"
  else if c.toNat < 32 then
    "\\u00" ++ hexDigit (c.toNat / 16) ++ hexDigit (c.toNat % 16)
  else String.singleton c

/-- Render a JSON string literal, quotes included. -/
def renderStr (s : String) : String :=
  "\"" ++ String.join (s.toList.map escapeChar) ++ "\""

/-- Render a JSON number: exact for integers; non-integral rationals fall
back to the `ℚ` representation (unused by any claim). -/
def renderNum (q : ℚ) : String :=
  if q.den = 1 then toString q.num else toString q

mutual

/-- Compact rendering of a JSON value, as serde_json `to_string`. -/
def Json.render : Json → String
  | Json.null => "null"
  | Json.bool true => "true"
  | Json.bool false => "false"
  | Json.num q => renderNum q
  | Json.str s => renderStr s
  | Json.arr xs => "[" ++ String.intercalate "," (Json.renderItems xs) ++ "]"
  | Json.obj fs => "\x7b" ++ String.intercalate "," (Json.renderFields fs) ++ "\x7d"

/-- Render each element of a JSON array. -/
def Json.renderItems : List Json → List String
  | [] => []
  | x :: xs => Json.render x :: Json.renderItems xs

/-- Render each `key:value` entry of a JSON object. -/
def Json.renderFields : List (String × Json) → List String
  | [] => []
  | kv :: rest => (renderStr kv.1 ++ ":" ++ Json.render kv.2) :: Json.renderFields rest

end

/-! ### External types from `crates/endpoints/src/chat.rs`

Modelled from the spec: `chat.rs` is not under `src/`; the spec treats the
chat-side types (`ChatCompletionRequestMessage`, `StreamOptions`, `Tool`,
`ToolChoice`, `ChatResponseFormat`) as opaque JSON-serializable values, so
each is modelled as a raw JSON value. -/

/-- Modelled from the spec: an opaque chat message value. -/
abbrev ChatCompletionRequestMessage := Json

/-- Modelled from the spec: opaque streaming options value. -/
abbrev StreamOptions := Json

/-- Modelled from the spec: opaque tool description value. -/
abbrev Tool := Json

/-- Modelled from the spec: opaque tool-choice value. -/
abbrev ToolChoice := Json

/-- Modelled from the spec: opaque response-format value. -/
abbrev ChatResponseFormat := Json

/-! ### `EmbeddingRequest` from `crates/endpoints/src/embeddings.rs`

Modelled from the spec: `embeddings.rs` is not under `src/`. Per the spec
(§3) an embedding request holds a model id, input text(s), an optional
encoding format and an optional user id; the in-file serialization tests of
`rag.rs` pin its JSON shape: keys `model`, `input` (a bare string or an
array of strings), with absent optional sub-fields omitted. -/

/-- Modelled from the spec: the input of an embedding request, either one
text or a list of texts (serialized untagged: bare string or array). -/
inductive InputText where
  | single : String → InputText
  | multiple : List String → InputText
deriving Repr, DecidableEq

/-- Modelled from the spec: a generic embedding request. -/
structure EmbeddingRequest where
  model : String
  input : InputText
  encoding_format : Option String
  user : Option String
deriving Repr, DecidableEq

/-- serde serialization of `InputText` (untagged). -/
def InputText.toJson : InputText → Json
  | InputText.single s => Json.str s
  | InputText.multiple xs => Json.arr (xs.map Json.str)

/-- serde deserialization of `InputText` (untagged). -/
def InputText.fromJson : Json → Option InputText
  | Json.str s => some (InputText.single s)
  | Json.arr xs => (mapMOpt parseStr xs).map InputText.multiple
  | _ => none

/-- serde serialization of `EmbeddingRequest` (optional sub-fields omitted
when absent). -/
def EmbeddingRequest.toJson (e : EmbeddingRequest) : Json :=
  Json.obj (
    ("model", Json.str e.model) ::
    ("input", e.input.toJson) ::
    optCons "encoding_format" Json.str e.encoding_format (
    optCons "user" Json.str e.user []))

/-- serde deserialization of `EmbeddingRequest`. -/
def EmbeddingRequest.fromJson : Json → Option EmbeddingRequest
  | Json.obj fields => do
      let model ← reqParseStep parseStr (Json.lookup fields "model")
      let input ← reqParseStep InputText.fromJson (Json.lookup fields "input")
      let ef ← optParseStep parseStr (Json.lookup fields "encoding_format")
      let u ← optParseStep parseStr (Json.lookup fields "user")
      pure ⟨model, input, ef, u⟩
  | _ => none

/-! ### `RagEmbeddingRequest` (`rag.rs` lines 13–51) -/

/-- `RagEmbeddingRequest` of `rag.rs`: an embedding request together with
the Qdrant target (serde renames: `embeddings`, `url`, `collection_name`). -/
structure RagEmbeddingRequest where
  embedding_request : EmbeddingRequest
  qdrant_url : String
  qdrant_collection_name : String
deriving Repr, DecidableEq

/-- `RagEmbeddingRequest::new` (`rag.rs` lines 23–38): wraps the input texts
with the placeholder model id and no encoding format or user. -/
def RagEmbeddingRequest.new (input : List String) (qdrant_url : String)
    (qdrant_collection_name : String) : RagEmbeddingRequest :=
  { embedding_request :=
      { model := "dummy-embedding-model"
        input := InputText.multiple input
        encoding_format := none
        user := none }
    qdrant_url := qdrant_url
    qdrant_collection_name := qdrant_collection_name }

/-- `RagEmbeddingRequest::from_embedding_request` (`rag.rs` lines 40–50). -/
def RagEmbeddingRequest.from_embedding_request (embedding_request : EmbeddingRequest)
    (qdrant_url : String) (qdrant_collection_name : String) : RagEmbeddingRequest :=
  { embedding_request := embedding_request
    qdrant_url := qdrant_url
    qdrant_collection_name := qdrant_collection_name }

/-- serde serialization of `RagEmbeddingRequest` with its renamed keys. -/
def RagEmbeddingRequest.toJson (r : RagEmbeddingRequest) : Json :=
  Json.obj
    [("embeddings", r.embedding_request.toJson),
     ("url", Json.str r.qdrant_url),
     ("collection_name", Json.str r.qdrant_collection_name)]

/-- serde deserialization of `RagEmbeddingRequest`. -/
def RagEmbeddingRequest.fromJson : Json → Option RagEmbeddingRequest
  | Json.obj fields => do
      let er ← reqParseStep EmbeddingRequest.fromJson (Json.lookup fields "embeddings")
      let u ← reqParseStep parseStr (Json.lookup fields "url")
      let c ← reqParseStep parseStr (Json.lookup fields "collection_name")
      pure ⟨er, u, c⟩
  | _ => none

/-! ### `RagChatCompletionsRequest` (`rag.rs` lines 91–173) -/

/-- `RagChatCompletionsRequest` of `rag.rs`: a chat-completion request
extended with retrieval parameters. Fields appear in the source's
declaration order; `Option` fields carry
`#[serde(skip_serializing_if = "Option::is_none")]` in the source except
`tools` and `tool_choice`, which have no serde attribute. -/
structure RagChatCompletionsRequest where
  chat_model : Option String
  messages : List ChatCompletionRequestMessage
  embedding_model : String
  encoding_format : Option String
  qdrant_url : String
  qdrant_collection_name : String
  limit : Nat
  temperature : Option ℚ
  top_p : Option ℚ
  n_choice : Option Nat
  stream : Option Bool
  stream_options : Option StreamOptions
  stop : Option (List String)
  max_tokens : Option Nat
  presence_penalty : Option ℚ
  frequency_penalty : Option ℚ
  logit_bias : Option (List (String × ℚ))
  user : Option String
  response_format : Option ChatResponseFormat
  tools : Option (List Tool)
  tool_choice : Option ToolChoice
  context_window : Option Nat

/-- Modelled from the spec: `ChatCompletionRequest` of
`crates/endpoints/src/chat.rs` is not under `src/`; its field set is fixed
by the spec (§3, §4.2: a plain chat-completion request with the same
chat/sampling fields plus legacy `functions` / `function_call` slots) and
by the field-by-field construction in `rag.rs` lines 176–196. The legacy
function-call fields are opaque values. -/
structure ChatCompletionRequest where
  model : Option String
  messages : List ChatCompletionRequestMessage
  temperature : Option ℚ
  top_p : Option ℚ
  n_choice : Option Nat
  stream : Option Bool
  stream_options : Option StreamOptions
  stop : Option (List String)
  max_tokens : Option Nat
  presence_penalty : Option ℚ
  frequency_penalty : Option ℚ
  logit_bias : Option (List (String × ℚ))
  user : Option String
  functions : Option Json
  function_call : Option Json
  response_format : Option ChatResponseFormat
  tool_choice : Option ToolChoice
  tools : Option (List Tool)
  context_window : Option Nat

/-- `RagChatCompletionsRequest::as_chat_completions_request`
(`rag.rs` lines 175–197): projects the RAG request onto a plain
chat-completion request, with the legacy function-call fields absent. -/
def RagChatCompletionsRequest.as_chat_completions_request
    (r : RagChatCompletionsRequest) : ChatCompletionRequest :=
  { model := r.chat_model
    messages := r.messages
    temperature := r.temperature
    top_p := r.top_p
    n_choice := r.n_choice
    stream := r.stream
    stream_options := r.stream_options
    stop := r.stop
    max_tokens := r.max_tokens
    presence_penalty := r.presence_penalty
    frequency_penalty := r.frequency_penalty
    logit_bias := r.logit_bias
    user := r.user
    functions := none
    function_call := none
    response_format := r.response_format
    tool_choice := r.tool_choice
    tools := r.tools
    context_window := r.context_window }

/-- `RagChatCompletionsRequest::from_chat_completions_request`
(`rag.rs` lines 199–229): extends a plain chat-completion request with the
given retrieval target, the placeholder embedding model, and no encoding
format; function-call data on the plain request is discarded. -/
def RagChatCompletionsRequest.from_chat_completions_request
    (chat_completions_request : ChatCompletionRequest) (qdrant_url : String)
    (qdrant_collection_name : String) (limit : Nat) : RagChatCompletionsRequest :=
  { chat_model := chat_completions_request.model
    messages := chat_completions_request.messages
    embedding_model := "dummy-embedding-model"
    encoding_format := none
    qdrant_url := qdrant_url
    qdrant_collection_name := qdrant_collection_name
    limit := limit
    temperature := chat_completions_request.temperature
    top_p := chat_completions_request.top_p
    n_choice := chat_completions_request.n_choice
    stream := chat_completions_request.stream
    stream_options := chat_completions_request.stream_options
    stop := chat_completions_request.stop
    max_tokens := chat_completions_request.max_tokens
    presence_penalty := chat_completions_request.presence_penalty
    frequency_penalty := chat_completions_request.frequency_penalty
    logit_bias := chat_completions_request.logit_bias
    user := chat_completions_request.user
    response_format := chat_completions_request.response_format
    tool_choice := chat_completions_request.tool_choice
    tools := chat_completions_request.tools
    context_window := chat_completions_request.context_window }

/-! ### `RagChatCompletionRequestBuilder` (`rag.rs` lines 232–352) -/

/-- Modelled from the spec: `ChatCompletionRequestSampling` of `chat.rs`,
a tagged choice between temperature-based and top-p-based sampling, with
exactly the two variants matched in `rag.rs` lines 281–284. -/
inductive ChatCompletionRequestSampling where
  | Temperature : ℚ → ChatCompletionRequestSampling
  | TopP : ℚ → ChatCompletionRequestSampling

/-- `RagChatCompletionRequestBuilder` of `rag.rs`: wraps the request under
construction. -/
structure RagChatCompletionRequestBuilder where
  req : RagChatCompletionsRequest

/-- `RagChatCompletionRequestBuilder::new` (`rag.rs` lines 246–278):
the four arguments stored verbatim, every other field a fixed default. -/
def RagChatCompletionRequestBuilder.new (messages : List ChatCompletionRequestMessage)
    (qdrant_url : String) (qdrant_collection_name : String) (limit : Nat) :
    RagChatCompletionRequestBuilder :=
  { req :=
      { chat_model := some "dummy-chat-model"
        messages := messages
        embedding_model := "dummy-embedding-model"
        encoding_format := some "float"
        qdrant_url := qdrant_url
        qdrant_collection_name := qdrant_collection_name
        limit := limit
        temperature := some 1
        top_p := some 1
        n_choice := some 1
        stream := some false
        stream_options := none
        stop := none
        max_tokens := some 1024
        presence_penalty := some 0
        frequency_penalty := some 0
        logit_bias := none
        user := none
        response_format := none
        tool_choice := none
        tools := none
        context_window := some 1 } }

/-- `with_sampling` (`rag.rs` lines 280–288): the selected parameter takes
the caller's value, the other is forced to the neutral `1.0`. -/
def RagChatCompletionRequestBuilder.with_sampling (b : RagChatCompletionRequestBuilder)
    (sampling : ChatCompletionRequestSampling) : RagChatCompletionRequestBuilder :=
  let tp : ℚ × ℚ :=
    match sampling with
    | ChatCompletionRequestSampling.Temperature t => (t, 1)
    | ChatCompletionRequestSampling.TopP p => (1, p)
  { req := { b.req with temperature := some tp.1, top_p := some tp.2 } }

/-- `with_n_choices` (`rag.rs` lines 295–299): `n < 1` is clamped up to 1. -/
def RagChatCompletionRequestBuilder.with_n_choices (b : RagChatCompletionRequestBuilder)
    (n : Nat) : RagChatCompletionRequestBuilder :=
  { req := { b.req with n_choice := some (if n < 1 then 1 else n) } }

/-- `with_stream` (`rag.rs` lines 301–304). -/
def RagChatCompletionRequestBuilder.with_stream (b : RagChatCompletionRequestBuilder)
    (flag : Bool) : RagChatCompletionRequestBuilder :=
  { req := { b.req with stream := some flag } }

/-- `with_stop` (`rag.rs` lines 306–309). -/
def RagChatCompletionRequestBuilder.with_stop (b : RagChatCompletionRequestBuilder)
    (stop : List String) : RagChatCompletionRequestBuilder :=
  { req := { b.req with stop := some stop } }

/-- `with_max_tokens` (`rag.rs` lines 316–320): `max_tokens < 1` is clamped
up to 16. -/
def RagChatCompletionRequestBuilder.with_max_tokens (b : RagChatCompletionRequestBuilder)
    (max_tokens : Nat) : RagChatCompletionRequestBuilder :=
  { req := { b.req with max_tokens := some (if max_tokens < 1 then 16 else max_tokens) } }

/-- `with_presence_penalty` (`rag.rs` lines 323–326). -/
def RagChatCompletionRequestBuilder.with_presence_penalty
    (b : RagChatCompletionRequestBuilder) (penalty : ℚ) : RagChatCompletionRequestBuilder :=
  { req := { b.req with presence_penalty := some penalty } }

/-- `with_frequency_penalty` (`rag.rs` lines 329–332). -/
def RagChatCompletionRequestBuilder.with_frequency_penalty
    (b : RagChatCompletionRequestBuilder) (penalty : ℚ) : RagChatCompletionRequestBuilder :=
  { req := { b.req with frequency_penalty := some penalty } }

/-- `with_logits_bias` (`rag.rs` lines 334–337). -/
def RagChatCompletionRequestBuilder.with_logits_bias
    (b : RagChatCompletionRequestBuilder) (map : List (String × ℚ)) :
    RagChatCompletionRequestBuilder :=
  { req := { b.req with logit_bias := some map } }

/-- `with_user` (`rag.rs` lines 339–342). -/
def RagChatCompletionRequestBuilder.with_user (b : RagChatCompletionRequestBuilder)
    (user : String) : RagChatCompletionRequestBuilder :=
  { req := { b.req with user := some user } }

/-- `with_context_window` (`rag.rs` lines 344–347). -/
def RagChatCompletionRequestBuilder.with_context_window
    (b : RagChatCompletionRequestBuilder) (context_window : Nat) :
    RagChatCompletionRequestBuilder :=
  { req := { b.req with context_window := some context_window } }

/-- `build` (`rag.rs` lines 349–351). -/
def RagChatCompletionRequestBuilder.build (b : RagChatCompletionRequestBuilder) :
    RagChatCompletionsRequest :=
  b.req

/-! ### `RetrieveObject` and `RagScoredPoint` (`rag.rs` lines 368–388) -/

/-- `RagScoredPoint` of `rag.rs`: one retrieved source with its score. -/
structure RagScoredPoint where
  source : String
  score : ℚ

/-- `RetrieveObject` of `rag.rs`: the retrieval response; `points` carries
`#[serde(skip_serializing_if = "Option::is_none")]`. -/
structure RetrieveObject where
  points : Option (List RagScoredPoint)
  limit : Nat
  score_threshold : ℚ

/-- serde serialization of `RagScoredPoint`. -/
def RagScoredPoint.toJson (p : RagScoredPoint) : Json :=
  Json.obj [("source", Json.str p.source), ("score", Json.num p.score)]

/-- serde deserialization of `RagScoredPoint`. -/
def RagScoredPoint.fromJson : Json → Option RagScoredPoint
  | Json.obj fields => do
      let s ← reqParseStep parseStr (Json.lookup fields "source")
      let sc ← reqParseStep parseNum (Json.lookup fields "score")
      pure ⟨s, sc⟩
  | _ => none

/-- serde serialization of `RetrieveObject`: `points` is omitted when
absent, `limit` and `score_threshold` always present. -/
def RetrieveObject.toJson (r : RetrieveObject) : Json :=
  Json.obj (
    optCons "points" (fun ps => Json.arr (ps.map RagScoredPoint.toJson)) r.points (
    ("limit", Json.num r.limit) ::
    ("score_threshold", Json.num r.score_threshold) :: []))

/-- Parse a JSON array of scored points. -/
def parsePointList : Json → Option (List RagScoredPoint)
  | Json.arr xs => mapMOpt RagScoredPoint.fromJson xs
  | _ => none

/-- serde deserialization of `RetrieveObject`. -/
def RetrieveObject.fromJson : Json → Option RetrieveObject
  | Json.obj fields => do
      let ps ← optParseStep parsePointList (Json.lookup fields "points")
      let lim ← reqParseStep parseU64 (Json.lookup fields "limit")
      let st ← reqParseStep parseNum (Json.lookup fields "score_threshold")
      pure ⟨ps, lim, st⟩
  | _ => none

/-- Serialize an `Option` field that has no serde skip attribute: `none`
becomes the JSON `null`. -/
def nullableField {α : Type} (enc : α → Json) : Option α → Json
  | none => Json.null
  | some a => enc a

/-- serde serialization of `RagChatCompletionsRequest`: fields in
declaration order; every `Option` field is key-omitted when `none` except
`tools` and `tool_choice`, which serialize as `null` when `none`. -/
def RagChatCompletionsRequest.toJsonFields (r : RagChatCompletionsRequest) :
    List (String × Json) :=
  optCons "chat_model" Json.str r.chat_model (
  ("messages", Json.arr r.messages) ::
  ("embedding_model", Json.str r.embedding_model) ::
  optCons "encoding_format" Json.str r.encoding_format (
  ("qdrant_url", Json.str r.qdrant_url) ::
  ("qdrant_collection_name", Json.str r.qdrant_collection_name) ::
  ("limit", Json.num r.limit) ::
  optCons "temperature" Json.num r.temperature (
  optCons "top_p" Json.num r.top_p (
  optCons "n_choice" (fun n => Json.num n) r.n_choice (
  optCons "stream" Json.bool r.stream (
  optCons "stream_options" (fun j => j) r.stream_options (
  optCons "stop" (fun xs => Json.arr (xs.map Json.str)) r.stop (
  optCons "max_tokens" (fun n => Json.num n) r.max_tokens (
  optCons "presence_penalty" Json.num r.presence_penalty (
  optCons "frequency_penalty" Json.num r.frequency_penalty (
  optCons "logit_bias" (fun m => Json.obj (m.map (fun kv => (kv.1, Json.num kv.2)))) r.logit_bias (
  optCons "user" Json.str r.user (
  optCons "response_format" (fun j => j) r.response_format (
  ("tools", nullableField Json.arr r.tools) ::
  ("tool_choice", nullableField (fun j => j) r.tool_choice) ::
  optCons "context_window" (fun n => Json.num n) r.context_window
    []))))))))))))))

/-- serde serialization of `RagChatCompletionsRequest` as a JSON object. -/
def RagChatCompletionsRequest.toJson (r : RagChatCompletionsRequest) : Json :=
  Json.obj r.toJsonFields

/-- First third of the `RagChatCompletionsRequest` fields, deserialized
(split only to keep each compiled unit small; the composition below is the
serde-derived deserializer). -/
structure RagFieldsA where
  chat_model : Option String
  messages : List Json
  embedding_model : String
  encoding_format : Option String
  qdrant_url : String
  qdrant_collection_name : String
  limit : Nat

/-- Middle third of the `RagChatCompletionsRequest` fields, deserialized. -/
structure RagFieldsB where
  temperature : Option ℚ
  top_p : Option ℚ
  n_choice : Option Nat
  stream : Option Bool
  stream_options : Option Json
  stop : Option (List String)
  max_tokens : Option Nat

/-- Last third of the `RagChatCompletionsRequest` fields, deserialized. -/
structure RagFieldsC where
  presence_penalty : Option ℚ
  frequency_penalty : Option ℚ
  logit_bias : Option (List (String × ℚ))
  user : Option String
  response_format : Option Json
  tools : Option (List Json)
  tool_choice : Option Json
  context_window : Option Nat

/-- Deserialize the first third of the fields. -/
def ragParseA (fields : List (String × Json)) : Option RagFieldsA := do
  let chat_model ← optParseStep parseStr (Json.lookup fields "chat_model")
  let messages ← reqParseStep parseJsonArr (Json.lookup fields "messages")
  let embedding_model ← reqParseStep parseStr (Json.lookup fields "embedding_model")
  let encoding_format ← optParseStep parseStr (Json.lookup fields "encoding_format")
  let qdrant_url ← reqParseStep parseStr (Json.lookup fields "qdrant_url")
  let qdrant_collection_name ← reqParseStep parseStr (Json.lookup fields "qdrant_collection_name")
  let limit ← reqParseStep parseU64 (Json.lookup fields "limit")
  pure ⟨chat_model, messages, embedding_model, encoding_format, qdrant_url,
        qdrant_collection_name, limit⟩

/-- Deserialize the middle third of the fields. -/
def ragParseB (fields : List (String × Json)) : Option RagFieldsB := do
  let temperature ← optParseStep parseNum (Json.lookup fields "temperature")
  let top_p ← optParseStep parseNum (Json.lookup fields "top_p")
  let n_choice ← optParseStep parseU64 (Json.lookup fields "n_choice")
  let stream ← optParseStep parseBool (Json.lookup fields "stream")
  let stream_options ← optParseStep parseOpaque (Json.lookup fields "stream_options")
  let stop ← optParseStep parseStrList (Json.lookup fields "stop")
  let max_tokens ← optParseStep parseU64 (Json.lookup fields "max_tokens")
  pure ⟨temperature, top_p, n_choice, stream, stream_options, stop, max_tokens⟩

/-- Deserialize the last third of the fields. -/
def ragParseC (fields : List (String × Json)) : Option RagFieldsC := do
  let presence_penalty ← optParseStep parseNum (Json.lookup fields "presence_penalty")
  let frequency_penalty ← optParseStep parseNum (Json.lookup fields "frequency_penalty")
  let logit_bias ← optParseStep parseNumMap (Json.lookup fields "logit_bias")
  let user ← optParseStep parseStr (Json.lookup fields "user")
  let response_format ← optParseStep parseOpaque (Json.lookup fields "response_format")
  let tools ← optParseStep parseJsonArr (Json.lookup fields "tools")
  let tool_choice ← optParseStep parseOpaque (Json.lookup fields "tool_choice")
  let context_window ← optParseStep parseU64 (Json.lookup fields "context_window")
  pure ⟨presence_penalty, frequency_penalty, logit_bias, user, response_format,
        tools, tool_choice, context_window⟩

/-- serde deserialization of `RagChatCompletionsRequest`: every field is
looked up by key in the object; required fields must be present and
well-typed, optional fields read `none` from a missing key or `null`. -/
def RagChatCompletionsRequest.fromJson : Json → Option RagChatCompletionsRequest
  | Json.obj fields => do
      let a ← ragParseA fields
      let b ← ragParseB fields
      let c ← ragParseC fields
      pure ⟨a.chat_model, a.messages, a.embedding_model, a.encoding_format,
            a.qdrant_url, a.qdrant_collection_name, a.limit, b.temperature,
            b.top_p, b.n_choice, b.stream, b.stream_options, b.stop,
            b.max_tokens, c.presence_penalty, c.frequency_penalty,
            c.logit_bias, c.user, c.response_format, c.tools, c.tool_choice,
            c.context_window⟩
  | _ => none

/-- Whether a serialized JSON object contains the given key. -/
def Json.hasKey (j : Json) (key : String) : Bool :=
  match j with
  | Json.obj fields => (Json.lookup fields key).isSome
  | _ => false

/-! ### Lookup and parse lemmas -/

/-- Looking a key up in the empty field list yields nothing. -/
theorem Json.lookup_nil (key : String) : Json.lookup [] key = none := rfl

/-- Unfolding lemma for `Json.lookup` on a cons cell. -/
theorem Json.lookup_cons (k key : String) (v : Json) (rest : List (String × Json)) :
    Json.lookup ((k, v) :: rest) key = if key = k then some v else Json.lookup rest key := rfl

/-- Looking up a key across an `optCons` field: a hit takes the encoded
value when the field is set and falls through otherwise; a miss skips the
field. -/
theorem Json.lookup_optCons {α : Type} (k key : String) (enc : α → Json) (o : Option α)
    (rest : List (String × Json)) :
    Json.lookup (optCons k enc o rest) key =
      if key = k then Option.or (o.map enc) (Json.lookup rest key)
      else Json.lookup rest key := by
  cases o <;> simp [optCons, Json.lookup_cons]

/-- Reading back an optional string field that was serialized with
`optCons`. -/
theorem optParseStep_map_str (o : Option String) :
    optParseStep parseStr (o.map Json.str) = some o := by
  cases o <;> rfl

/-- Reading back an optional number field. -/
theorem optParseStep_map_num (o : Option ℚ) :
    optParseStep parseNum (o.map Json.num) = some o := by
  cases o <;> rfl

/-- Reading back an optional boolean field. -/
theorem optParseStep_map_bool (o : Option Bool) :
    optParseStep parseBool (o.map Json.bool) = some o := by
  cases o <;> rfl

/-- A `u64` value below `2^64` deserializes back from its JSON number. -/
theorem parseU64_natCast (n : Nat) (h : n < 2 ^ 64) :
    parseU64 (Json.num (n : ℚ)) = some n := by
  have h64 : (n : ℤ) < 2 ^ 64 := by exact_mod_cast h
  simp [parseU64, Rat.num_natCast, Rat.den_natCast, Int.natCast_nonneg, h64]
  exact h.trans_eq (by norm_num)

/-- Reading back an optional `u64` field whose value is in range. -/
theorem optParseStep_map_u64 (o : Option Nat) (h : ∀ n ∈ o, n < 2 ^ 64) :
    optParseStep parseU64 (o.map fun n => Json.num (n : ℚ)) = some o := by
  cases o with
  | none => rfl
  | some n => simp [optParseStep, parseU64_natCast n (h n rfl)]

/-- Reading back an optional opaque field that is not the `null` value. -/
theorem optParseStep_opaque (o : Option Json) (h : o ≠ some Json.null) :
    optParseStep parseOpaque o = some o := by
  cases o with
  | none => rfl
  | some v => cases v <;> first | rfl | exact absurd rfl h

/-- A required string field deserializes back. -/
theorem reqParseStep_str (s : String) :
    reqParseStep parseStr (some (Json.str s)) = some s := rfl

/-- A required raw-array field deserializes back. -/
theorem reqParseStep_arr (xs : List Json) :
    reqParseStep parseJsonArr (some (Json.arr xs)) = some xs := rfl

/-- A required number field deserializes back. -/
theorem reqParseStep_num (q : ℚ) :
    reqParseStep parseNum (some (Json.num q)) = some q := rfl

/-- Unfolding lemma: a required field that is present hands its value to
the payload parser. -/
theorem reqParseStep_some {α : Type} (p : Json → Option α) (v : Json) :
    reqParseStep p (some v) = p v := rfl

/-- A required in-range `u64` field deserializes back. -/
theorem reqParseStep_u64 (n : Nat) (h : n < 2 ^ 64) :
    reqParseStep parseU64 (some (Json.num (n : ℚ))) = some n := by
  rw [reqParseStep_some, parseU64_natCast n h]

/-- A serialized list of strings parses back elementwise. -/
theorem mapM_parseStr_map (xs : List String) :
    mapMOpt parseStr (xs.map Json.str) = some xs := by
  induction xs with
  | nil => rfl
  | cons x xs ih => simp [mapMOpt, ih, parseStr]

/-- Reading back an optional `Vec<String>` field. -/
theorem optParseStep_map_strList (o : Option (List String)) :
    optParseStep parseStrList (o.map fun xs => Json.arr (xs.map Json.str)) = some o := by
  cases o with
  | none => rfl
  | some xs => simp [optParseStep, parseStrList, mapM_parseStr_map]

/-- Unfolding lemma: parsing a JSON string succeeds with its value. -/
theorem parseStr_str (s : String) : parseStr (Json.str s) = some s := rfl

/-- Unfolding lemma: parsing a JSON number succeeds with its value. -/
theorem parseNum_num (q : ℚ) : parseNum (Json.num q) = some q := rfl

/-- A serialized string-to-number map parses back entrywise. -/
theorem mapM_parseNumMap_map (m : List (String × ℚ)) :
    mapMOpt (fun kv => (parseNum kv.2).map (fun q => (kv.1, q)))
      (m.map fun kv => (kv.1, Json.num kv.2)) = some m := by
  induction m with
  | nil => rfl
  | cons kv m ih => simp [mapMOpt, ih, parseNum_num]

/-- Reading back an optional `HashMap<String, f64>` field. -/
theorem optParseStep_map_numMap (o : Option (List (String × ℚ))) :
    optParseStep parseNumMap
      (o.map fun m => Json.obj (m.map fun kv => (kv.1, Json.num kv.2))) = some o := by
  cases o with
  | none => rfl
  | some m => simp [optParseStep, parseNumMap, mapM_parseNumMap_map]

/-- Reading back the always-present `tools` field: `null` restores `none`,
an array restores the list. -/
theorem optParseStep_tools (o : Option (List Json)) :
    optParseStep parseJsonArr (some (nullableField Json.arr o)) = some o := by
  cases o <;> rfl

/-- Reading back the always-present `tool_choice` field when the stored
opaque value is not `null`. -/
theorem optParseStep_tool_choice (o : Option Json) (h : o ≠ some Json.null) :
    optParseStep parseOpaque (some (nullableField (fun j => j) o)) = some o := by
  cases o with
  | none => rfl
  | some v => cases v <;> first | rfl | exact absurd rfl h

/-- A scored point deserializes back from its serialization. -/
theorem scoredPointFromJson_toJson (p : RagScoredPoint) :
    RagScoredPoint.fromJson p.toJson = some p := by
  cases p
  simp [RagScoredPoint.fromJson, RagScoredPoint.toJson, Json.lookup_cons,
    reqParseStep_str, reqParseStep_num]

/-- A serialized list of scored points parses back elementwise. -/
theorem mapM_points_map (ps : List RagScoredPoint) :
    mapMOpt RagScoredPoint.fromJson (ps.map RagScoredPoint.toJson) = some ps := by
  induction ps with
  | nil => rfl
  | cons p ps ih => simp [mapMOpt, ih, scoredPointFromJson_toJson]

/-- Reading back the optional `points` field of `RetrieveObject`. -/
theorem optParseStep_map_points (o : Option (List RagScoredPoint)) :
    optParseStep parsePointList
      (o.map fun ps => Json.arr (ps.map RagScoredPoint.toJson)) = some o := by
  cases o with
  | none => rfl
  | some ps => simp [optParseStep, parsePointList, mapM_points_map]

/-- The identity map on an optional JSON value. -/
theorem map_id_json (o : Option Json) : Option.map (fun j => j) o = o := by
  cases o <;> rfl


/-- Field lookup lemma: reading the `chat_model` field back from the serialized
request. -/
theorem rag_step_chat_model (r : RagChatCompletionsRequest) :
    optParseStep parseStr (Json.lookup r.toJsonFields "chat_model") = some r.chat_model := by
  simp [RagChatCompletionsRequest.toJsonFields, Json.lookup_optCons, Json.lookup_cons,
    Json.lookup_nil, Option.or_none, optParseStep_map_str]

/-- Field lookup lemma: reading the `messages` field back from the serialized
request. -/
theorem rag_step_messages (r : RagChatCompletionsRequest) :
    reqParseStep parseJsonArr (Json.lookup r.toJsonFields "messages") = some r.messages := by
  simp [RagChatCompletionsRequest.toJsonFields, Json.lookup_optCons, Json.lookup_cons,
    Json.lookup_nil, Option.or_none, reqParseStep_arr]

/-- Field lookup lemma: reading the `embedding_model` field back from the serialized
request. -/
theorem rag_step_embedding_model (r : RagChatCompletionsRequest) :
    reqParseStep parseStr (Json.lookup r.toJsonFields "embedding_model") = some r.embedding_model := by
  simp [RagChatCompletionsRequest.toJsonFields, Json.lookup_optCons, Json.lookup_cons,
    Json.lookup_nil, Option.or_none, reqParseStep_str]

/-- Field lookup lemma: reading the `encoding_format` field back from the serialized
request. -/
theorem rag_step_encoding_format (r : RagChatCompletionsRequest) :
    optParseStep parseStr (Json.lookup r.toJsonFields "encoding_format") = some r.encoding_format := by
  simp [RagChatCompletionsRequest.toJsonFields, Json.lookup_optCons, Json.lookup_cons,
    Json.lookup_nil, Option.or_none, optParseStep_map_str]

/-- Field lookup lemma: reading the `qdrant_url` field back from the serialized
request. -/
theorem rag_step_qdrant_url (r : RagChatCompletionsRequest) :
    reqParseStep parseStr (Json.lookup r.toJsonFields "qdrant_url") = some r.qdrant_url := by
  simp [RagChatCompletionsRequest.toJsonFields, Json.lookup_optCons, Json.lookup_cons,
    Json.lookup_nil, Option.or_none, reqParseStep_str]

/-- Field lookup lemma: reading the `qdrant_collection_name` field back from the serialized
request. -/
theorem rag_step_qdrant_collection_name (r : RagChatCompletionsRequest) :
    reqParseStep parseStr (Json.lookup r.toJsonFields "qdrant_collection_name") = some r.qdrant_collection_name := by
  simp [RagChatCompletionsRequest.toJsonFields, Json.lookup_optCons, Json.lookup_cons,
    Json.lookup_nil, Option.or_none, reqParseStep_str]

/-- Field lookup lemma: reading the `limit` field back from the serialized
request, given it is a valid `u64` value. -/
theorem rag_step_limit (r : RagChatCompletionsRequest) (hlim : r.limit < 2 ^ 64) :
    reqParseStep parseU64 (Json.lookup r.toJsonFields "limit") = some r.limit := by
  simp [RagChatCompletionsRequest.toJsonFields, Json.lookup_optCons, Json.lookup_cons,
    Json.lookup_nil, Option.or_none, reqParseStep_u64 r.limit hlim]

/-- Field lookup lemma: reading the `temperature` field back from the serialized
request. -/
theorem rag_step_temperature (r : RagChatCompletionsRequest) :
    optParseStep parseNum (Json.lookup r.toJsonFields "temperature") = some r.temperature := by
  simp [RagChatCompletionsRequest.toJsonFields, Json.lookup_optCons, Json.lookup_cons,
    Json.lookup_nil, Option.or_none, optParseStep_map_num]

/-- Field lookup lemma: reading the `top_p` field back from the serialized
request. -/
theorem rag_step_top_p (r : RagChatCompletionsRequest) :
    optParseStep parseNum (Json.lookup r.toJsonFields "top_p") = some r.top_p := by
  simp [RagChatCompletionsRequest.toJsonFields, Json.lookup_optCons, Json.lookup_cons,
    Json.lookup_nil, Option.or_none, optParseStep_map_num]

/-- Field lookup lemma: reading the `n_choice` field back from the serialized
request, given the stored value is a valid `u64` value. -/
theorem rag_step_n_choice (r : RagChatCompletionsRequest) (h : ∀ n ∈ r.n_choice, n < 2 ^ 64) :
    optParseStep parseU64 (Json.lookup r.toJsonFields "n_choice") = some r.n_choice := by
  have hbase : Json.lookup r.toJsonFields "n_choice" =
      r.n_choice.map fun n => Json.num (n : ℚ) := by
    simp [RagChatCompletionsRequest.toJsonFields, Json.lookup_optCons, Json.lookup_cons,
      Json.lookup_nil, Option.or_none]
  rw [hbase]
  exact optParseStep_map_u64 r.n_choice h

/-- Field lookup lemma: reading the `stream` field back from the serialized
request. -/
theorem rag_step_stream (r : RagChatCompletionsRequest) :
    optParseStep parseBool (Json.lookup r.toJsonFields "stream") = some r.stream := by
  simp [RagChatCompletionsRequest.toJsonFields, Json.lookup_optCons, Json.lookup_cons,
    Json.lookup_nil, Option.or_none, optParseStep_map_bool]

/-- Field lookup lemma: reading the opaque `stream_options` field back from the
serialized request, given the stored value is not the JSON `null`. -/
theorem rag_step_stream_options (r : RagChatCompletionsRequest) (h : r.stream_options ≠ some Json.null) :
    optParseStep parseOpaque (Json.lookup r.toJsonFields "stream_options") = some r.stream_options := by
  simp [RagChatCompletionsRequest.toJsonFields, Json.lookup_optCons, Json.lookup_cons,
    Json.lookup_nil, Option.or_none, map_id_json, optParseStep_opaque r.stream_options h]

/-- Field lookup lemma: reading the `stop` field back from the serialized
request. -/
theorem rag_step_stop (r : RagChatCompletionsRequest) :
    optParseStep parseStrList (Json.lookup r.toJsonFields "stop") = some r.stop := by
  simp [RagChatCompletionsRequest.toJsonFields, Json.lookup_optCons, Json.lookup_cons,
    Json.lookup_nil, Option.or_none, optParseStep_map_strList]

/-- Field lookup lemma: reading the `max_tokens` field back from the serialized
request, given the stored value is a valid `u64` value. -/
theorem rag_step_max_tokens (r : RagChatCompletionsRequest) (h : ∀ n ∈ r.max_tokens, n < 2 ^ 64) :
    optParseStep parseU64 (Json.lookup r.toJsonFields "max_tokens") = some r.max_tokens := by
  have hbase : Json.lookup r.toJsonFields "max_tokens" =
      r.max_tokens.map fun n => Json.num (n : ℚ) := by
    simp [RagChatCompletionsRequest.toJsonFields, Json.lookup_optCons, Json.lookup_cons,
      Json.lookup_nil, Option.or_none]
  rw [hbase]
  exact optParseStep_map_u64 r.max_tokens h

/-- Field lookup lemma: reading the `presence_penalty` field back from the serialized
request. -/
theorem rag_step_presence_penalty (r : RagChatCompletionsRequest) :
    optParseStep parseNum (Json.lookup r.toJsonFields "presence_penalty") = some r.presence_penalty := by
  simp [RagChatCompletionsRequest.toJsonFields, Json.lookup_optCons, Json.lookup_cons,
    Json.lookup_nil, Option.or_none, optParseStep_map_num]

/-- Field lookup lemma: reading the `frequency_penalty` field back from the serialized
request. -/
theorem rag_step_frequency_penalty (r : RagChatCompletionsRequest) :
    optParseStep parseNum (Json.lookup r.toJsonFields "frequency_penalty") = some r.frequency_penalty := by
  simp [RagChatCompletionsRequest.toJsonFields, Json.lookup_optCons, Json.lookup_cons,
    Json.lookup_nil, Option.or_none, optParseStep_map_num]

/-- Field lookup lemma: reading the `logit_bias` field back from the serialized
request. -/
theorem rag_step_logit_bias (r : RagChatCompletionsRequest) :
    optParseStep parseNumMap (Json.lookup r.toJsonFields "logit_bias") = some r.logit_bias := by
  simp [RagChatCompletionsRequest.toJsonFields, Json.lookup_optCons, Json.lookup_cons,
    Json.lookup_nil, Option.or_none, optParseStep_map_numMap]

/-- Field lookup lemma: reading the `user` field back from the serialized
request. -/
theorem rag_step_user (r : RagChatCompletionsRequest) :
    optParseStep parseStr (Json.lookup r.toJsonFields "user") = some r.user := by
  simp [RagChatCompletionsRequest.toJsonFields, Json.lookup_optCons, Json.lookup_cons,
    Json.lookup_nil, Option.or_none, optParseStep_map_str]

/-- Field lookup lemma: reading the opaque `response_format` field back from the
serialized request, given the stored value is not the JSON `null`. -/
theorem rag_step_response_format (r : RagChatCompletionsRequest) (h : r.response_format ≠ some Json.null) :
    optParseStep parseOpaque (Json.lookup r.toJsonFields "response_format") = some r.response_format := by
  simp [RagChatCompletionsRequest.toJsonFields, Json.lookup_optCons, Json.lookup_cons,
    Json.lookup_nil, Option.or_none, map_id_json, optParseStep_opaque r.response_format h]

/-- Field lookup lemma: reading the always-present `tools` field back. -/
theorem rag_step_tools (r : RagChatCompletionsRequest) :
    optParseStep parseJsonArr (Json.lookup r.toJsonFields "tools") = some r.tools := by
  simp [RagChatCompletionsRequest.toJsonFields, Json.lookup_optCons, Json.lookup_cons,
    Json.lookup_nil, Option.or_none, optParseStep_tools]

/-- Field lookup lemma: reading the always-present `tool_choice` field
back, given the stored opaque value is not the JSON `null`. -/
theorem rag_step_tool_choice (r : RagChatCompletionsRequest) (h : r.tool_choice ≠ some Json.null) :
    optParseStep parseOpaque (Json.lookup r.toJsonFields "tool_choice") = some r.tool_choice := by
  simp [RagChatCompletionsRequest.toJsonFields, Json.lookup_optCons, Json.lookup_cons,
    Json.lookup_nil, Option.or_none, optParseStep_tool_choice r.tool_choice h]

/-- Field lookup lemma: reading the `context_window` field back from the serialized
request, given the stored value is a valid `u64` value. -/
theorem rag_step_context_window (r : RagChatCompletionsRequest) (h : ∀ n ∈ r.context_window, n < 2 ^ 64) :
    optParseStep parseU64 (Json.lookup r.toJsonFields "context_window") = some r.context_window := by
  have hbase : Json.lookup r.toJsonFields "context_window" =
      r.context_window.map fun n => Json.num (n : ℚ) := by
    simp [RagChatCompletionsRequest.toJsonFields, Json.lookup_optCons, Json.lookup_cons,
      Json.lookup_nil, Option.or_none]
  rw [hbase]
  exact optParseStep_map_u64 r.context_window h

/-- The first parsed field group reads back exactly the serialized
request's fields. -/
theorem ragParseA_toJsonFields (r : RagChatCompletionsRequest) (hlim : r.limit < 2 ^ 64) :
    ragParseA r.toJsonFields =
      some ⟨r.chat_model, r.messages, r.embedding_model, r.encoding_format,
            r.qdrant_url, r.qdrant_collection_name, r.limit⟩ := by
  simp [ragParseA, rag_step_chat_model, rag_step_messages, rag_step_embedding_model,
    rag_step_encoding_format, rag_step_qdrant_url, rag_step_qdrant_collection_name,
    rag_step_limit r hlim]

/-- The middle parsed field group reads back exactly the serialized
request's fields. -/
theorem ragParseB_toJsonFields (r : RagChatCompletionsRequest)
    (hn : ∀ n ∈ r.n_choice, n < 2 ^ 64) (hmax : ∀ n ∈ r.max_tokens, n < 2 ^ 64)
    (hso : r.stream_options ≠ some Json.null) :
    ragParseB r.toJsonFields =
      some ⟨r.temperature, r.top_p, r.n_choice, r.stream, r.stream_options,
            r.stop, r.max_tokens⟩ := by
  simp [ragParseB, rag_step_temperature, rag_step_top_p, rag_step_n_choice r hn,
    rag_step_stream, rag_step_stream_options r hso, rag_step_stop,
    rag_step_max_tokens r hmax]

/-- The last parsed field group reads back exactly the serialized
request's fields. -/
theorem ragParseC_toJsonFields (r : RagChatCompletionsRequest)
    (hcw : ∀ n ∈ r.context_window, n < 2 ^ 64)
    (hrf : r.response_format ≠ some Json.null)
    (htc : r.tool_choice ≠ some Json.null) :
    ragParseC r.toJsonFields =
      some ⟨r.presence_penalty, r.frequency_penalty, r.logit_bias, r.user,
            r.response_format, r.tools, r.tool_choice, r.context_window⟩ := by
  simp [ragParseC, rag_step_presence_penalty, rag_step_frequency_penalty,
    rag_step_logit_bias, rag_step_user, rag_step_response_format r hrf,
    rag_step_tools, rag_step_tool_choice r htc, rag_step_context_window r hcw]

/-- Serialize→deserialize round trip for `RagChatCompletionsRequest`: any
request whose `u64` counters are in range and whose opaque optional values
are not the JSON `null` reads back unchanged. -/
theorem ragFromJson_toJson (r : RagChatCompletionsRequest)
    (hlim : r.limit < 2 ^ 64)
    (hn : ∀ n ∈ r.n_choice, n < 2 ^ 64)
    (hmax : ∀ n ∈ r.max_tokens, n < 2 ^ 64)
    (hcw : ∀ n ∈ r.context_window, n < 2 ^ 64)
    (hso : r.stream_options ≠ some Json.null)
    (hrf : r.response_format ≠ some Json.null)
    (htc : r.tool_choice ≠ some Json.null) :
    RagChatCompletionsRequest.fromJson r.toJson = some r := by
  simp [RagChatCompletionsRequest.fromJson, RagChatCompletionsRequest.toJson,
    ragParseA_toJsonFields r hlim, ragParseB_toJsonFields r hn hmax hso,
    ragParseC_toJsonFields r hcw hrf htc]

/-- Serialize→deserialize round trip for `RetrieveObject` with an in-range
limit. -/
theorem retrieveFromJson_toJson (r : RetrieveObject) (hlim : r.limit < 2 ^ 64) :
    RetrieveObject.fromJson r.toJson = some r := by
  simp [RetrieveObject.fromJson, RetrieveObject.toJson, Json.lookup_optCons,
    Json.lookup_cons, Json.lookup_nil, Option.or_none, optParseStep_map_points,
    reqParseStep_num, reqParseStep_u64 r.limit hlim]

/-- An input-text value deserializes back from its untagged serialization. -/
theorem inputTextFromJson_toJson (t : InputText) :
    InputText.fromJson t.toJson = some t := by
  cases t with
  | single s => rfl
  | multiple xs => simp [InputText.fromJson, InputText.toJson, mapM_parseStr_map]

/-- Serialize→deserialize round trip for `EmbeddingRequest`. -/
theorem embeddingFromJson_toJson (e : EmbeddingRequest) :
    EmbeddingRequest.fromJson e.toJson = some e := by
  simp [EmbeddingRequest.fromJson, EmbeddingRequest.toJson, Json.lookup_optCons,
    Json.lookup_cons, Json.lookup_nil, Option.or_none, reqParseStep_str,
    reqParseStep_some, parseStr_str, inputTextFromJson_toJson, optParseStep_map_str]

/-- Serialize→deserialize round trip for `RagEmbeddingRequest`. -/
theorem ragEmbeddingFromJson_toJson (r : RagEmbeddingRequest) :
    RagEmbeddingRequest.fromJson r.toJson = some r := by
  simp [RagEmbeddingRequest.fromJson, RagEmbeddingRequest.toJson, Json.lookup_cons,
    reqParseStep_str, reqParseStep_some, parseStr_str, embeddingFromJson_toJson]

/-! ### Claim theorems -/

/-- C1: converting a `RagChatCompletionsRequest` with
`as_chat_completions_request` and back with `from_chat_completions_request`
(supplying the original `qdrant_url`, `qdrant_collection_name` and `limit`)
preserves every chat/sampling field and `context_window`, while the
resulting `encoding_format` is always absent regardless of the original. -/
theorem claim_C1_conversion_roundtrip (r : RagChatCompletionsRequest) :
    (RagChatCompletionsRequest.from_chat_completions_request
        r.as_chat_completions_request r.qdrant_url r.qdrant_collection_name
        r.limit).chat_model = r.chat_model ∧
    (RagChatCompletionsRequest.from_chat_completions_request
        r.as_chat_completions_request r.qdrant_url r.qdrant_collection_name
        r.limit).messages = r.messages ∧
    (RagChatCompletionsRequest.from_chat_completions_request
        r.as_chat_completions_request r.qdrant_url r.qdrant_collection_name
        r.limit).temperature = r.temperature ∧
    (RagChatCompletionsRequest.from_chat_completions_request
        r.as_chat_completions_request r.qdrant_url r.qdrant_collection_name
        r.limit).top_p = r.top_p ∧
    (RagChatCompletionsRequest.from_chat_completions_request
        r.as_chat_completions_request r.qdrant_url r.qdrant_collection_name
        r.limit).n_choice = r.n_choice ∧
    (RagChatCompletionsRequest.from_chat_completions_request
        r.as_chat_completions_request r.qdrant_url r.qdrant_collection_name
        r.limit).stream = r.stream ∧
    (RagChatCompletionsRequest.from_chat_completions_request
        r.as_chat_completions_request r.qdrant_url r.qdrant_collection_name
        r.limit).stream_options = r.stream_options ∧
    (RagChatCompletionsRequest.from_chat_completions_request
        r.as_chat_completions_request r.qdrant_url r.qdrant_collection_name
        r.limit).stop = r.stop ∧
    (RagChatCompletionsRequest.from_chat_completions_request
        r.as_chat_completions_request r.qdrant_url r.qdrant_collection_name
        r.limit).max_tokens = r.max_tokens ∧
    (RagChatCompletionsRequest.from_chat_completions_request
        r.as_chat_completions_request r.qdrant_url r.qdrant_collection_name
        r.limit).presence_penalty = r.presence_penalty ∧
    (RagChatCompletionsRequest.from_chat_completions_request
        r.as_chat_completions_request r.qdrant_url r.qdrant_collection_name
        r.limit).frequency_penalty = r.frequency_penalty ∧
    (RagChatCompletionsRequest.from_chat_completions_request
        r.as_chat_completions_request r.qdrant_url r.qdrant_collection_name
        r.limit).logit_bias = r.logit_bias ∧
    (RagChatCompletionsRequest.from_chat_completions_request
        r.as_chat_completions_request r.qdrant_url r.qdrant_collection_name
        r.limit).user = r.user ∧
    (RagChatCompletionsRequest.from_chat_completions_request
        r.as_chat_completions_request r.qdrant_url r.qdrant_collection_name
        r.limit).response_format = r.response_format ∧
    (RagChatCompletionsRequest.from_chat_completions_request
        r.as_chat_completions_request r.qdrant_url r.qdrant_collection_name
        r.limit).tools = r.tools ∧
    (RagChatCompletionsRequest.from_chat_completions_request
        r.as_chat_completions_request r.qdrant_url r.qdrant_collection_name
        r.limit).tool_choice = r.tool_choice ∧
    (RagChatCompletionsRequest.from_chat_completions_request
        r.as_chat_completions_request r.qdrant_url r.qdrant_collection_name
        r.limit).context_window = r.context_window ∧
    (RagChatCompletionsRequest.from_chat_completions_request
        r.as_chat_completions_request r.qdrant_url r.qdrant_collection_name
        r.limit).encoding_format = none :=
  ⟨rfl, rfl, rfl, rfl, rfl, rfl, rfl, rfl, rfl, rfl, rfl, rfl, rfl, rfl, rfl,
   rfl, rfl, rfl⟩

/-- C3: `as_chat_completions_request` copies every chat/sampling field
unchanged (`chat_model` into `model`), sets the legacy `functions` and
`function_call` fields to absent, and its result does not depend on any of
the retrieval fields `embedding_model`, `encoding_format`, `qdrant_url`,
`qdrant_collection_name`, `limit`. -/
theorem claim_C3_projection (r : RagChatCompletionsRequest) :
    r.as_chat_completions_request.model = r.chat_model ∧
    r.as_chat_completions_request.messages = r.messages ∧
    r.as_chat_completions_request.temperature = r.temperature ∧
    r.as_chat_completions_request.top_p = r.top_p ∧
    r.as_chat_completions_request.n_choice = r.n_choice ∧
    r.as_chat_completions_request.stream = r.stream ∧
    r.as_chat_completions_request.stream_options = r.stream_options ∧
    r.as_chat_completions_request.stop = r.stop ∧
    r.as_chat_completions_request.max_tokens = r.max_tokens ∧
    r.as_chat_completions_request.presence_penalty = r.presence_penalty ∧
    r.as_chat_completions_request.frequency_penalty = r.frequency_penalty ∧
    r.as_chat_completions_request.logit_bias = r.logit_bias ∧
    r.as_chat_completions_request.user = r.user ∧
    r.as_chat_completions_request.response_format = r.response_format ∧
    r.as_chat_completions_request.tools = r.tools ∧
    r.as_chat_completions_request.tool_choice = r.tool_choice ∧
    r.as_chat_completions_request.context_window = r.context_window ∧
    r.as_chat_completions_request.functions = none ∧
    r.as_chat_completions_request.function_call = none ∧
    (∀ em ef qu qc lim,
      ({ r with embedding_model := em, encoding_format := ef, qdrant_url := qu,
                qdrant_collection_name := qc,
                limit := lim } : RagChatCompletionsRequest).as_chat_completions_request =
        r.as_chat_completions_request) :=
  ⟨rfl, rfl, rfl, rfl, rfl, rfl, rfl, rfl, rfl, rfl, rfl, rfl, rfl, rfl, rfl,
   rfl, rfl, rfl, rfl, fun _ _ _ _ _ => rfl⟩

/-- C4: `with_n_choices` stores 1 when the argument is below 1 and the
argument itself otherwise; `with_max_tokens` stores 16 (not 1024) when the
argument is below 1 and the argument itself otherwise; neither setter ever
stores zero. -/
theorem claim_C4_builder_floors (b : RagChatCompletionRequestBuilder) (n m : Nat) :
    (n < 1 → (b.with_n_choices n).req.n_choice = some 1) ∧
    (1 ≤ n → (b.with_n_choices n).req.n_choice = some n) ∧
    (m < 1 → (b.with_max_tokens m).req.max_tokens = some 16) ∧
    (1 ≤ m → (b.with_max_tokens m).req.max_tokens = some m) ∧
    (b.with_n_choices n).req.n_choice ≠ some 0 ∧
    (b.with_max_tokens m).req.max_tokens ≠ some 0 := by
  refine ⟨fun h => ?_, fun h => ?_, fun h => ?_, fun h => ?_, ?_, ?_⟩
  · simp [RagChatCompletionRequestBuilder.with_n_choices, h]
  · have hnot : ¬ n < 1 := Nat.not_lt.mpr h
    simp [RagChatCompletionRequestBuilder.with_n_choices, hnot]
  · simp [RagChatCompletionRequestBuilder.with_max_tokens, h]
  · have hnot : ¬ m < 1 := Nat.not_lt.mpr h
    simp [RagChatCompletionRequestBuilder.with_max_tokens, hnot]
  · by_cases hn : n < 1
    · simp [RagChatCompletionRequestBuilder.with_n_choices, hn]
    · simp [RagChatCompletionRequestBuilder.with_n_choices, hn]
      omega
  · by_cases hm : m < 1
    · simp [RagChatCompletionRequestBuilder.with_max_tokens, hm]
    · simp [RagChatCompletionRequestBuilder.with_max_tokens, hm]
      omega

/-- C5: `with_sampling` with a temperature sets that temperature and forces
`top_p` to exactly 1.0; with a top-p value it sets that `top_p` and forces
`temperature` to exactly 1.0. -/
theorem claim_C5_sampling_exclusivity (b : RagChatCompletionRequestBuilder) (t p : ℚ) :
    (b.with_sampling (ChatCompletionRequestSampling.Temperature t)).req.temperature = some t ∧
    (b.with_sampling (ChatCompletionRequestSampling.Temperature t)).req.top_p = some 1 ∧
    (b.with_sampling (ChatCompletionRequestSampling.TopP p)).req.top_p = some p ∧
    (b.with_sampling (ChatCompletionRequestSampling.TopP p)).req.temperature = some 1 :=
  ⟨rfl, rfl, rfl, rfl⟩

/-- A concrete builder, used to instantiate builder theorems. -/
def sampleBuilder : RagChatCompletionRequestBuilder :=
  RagChatCompletionRequestBuilder.new [] "http://localhost:6333" "docs" 3

/-- Witness for C4 at a concrete builder: clamped and unclamped setter
calls store the claimed values. -/
theorem claim_C4_builder_floors_witness :
    (sampleBuilder.with_n_choices 0).req.n_choice = some 1 ∧
    (sampleBuilder.with_n_choices 4).req.n_choice = some 4 ∧
    (sampleBuilder.with_max_tokens 0).req.max_tokens = some 16 ∧
    (sampleBuilder.with_max_tokens 5).req.max_tokens = some 5 ∧
    (sampleBuilder.with_n_choices 0).req.n_choice ≠ some 0 ∧
    (sampleBuilder.with_max_tokens 0).req.max_tokens ≠ some 0 :=
  ⟨(claim_C4_builder_floors sampleBuilder 0 0).1 (by decide),
   (claim_C4_builder_floors sampleBuilder 4 0).2.1 (by decide),
   (claim_C4_builder_floors sampleBuilder 0 0).2.2.1 (by decide),
   (claim_C4_builder_floors sampleBuilder 0 5).2.2.2.1 (by decide),
   (claim_C4_builder_floors sampleBuilder 0 0).2.2.2.2.1,
   (claim_C4_builder_floors sampleBuilder 0 0).2.2.2.2.2⟩

/-- C6: the builder constructor stores its four arguments verbatim and
fills every other field with the fixed placeholder defaults. -/
theorem claim_C6_builder_defaults (messages : List ChatCompletionRequestMessage)
    (qdrant_url qdrant_collection_name : String) (limit : Nat) :
    (RagChatCompletionRequestBuilder.new messages qdrant_url
        qdrant_collection_name limit).req.chat_model = some "dummy-chat-model" ∧
    (RagChatCompletionRequestBuilder.new messages qdrant_url
        qdrant_collection_name limit).req.embedding_model = "dummy-embedding-model" ∧
    (RagChatCompletionRequestBuilder.new messages qdrant_url
        qdrant_collection_name limit).req.encoding_format = some "float" ∧
    (RagChatCompletionRequestBuilder.new messages qdrant_url
        qdrant_collection_name limit).req.temperature = some 1 ∧
    (RagChatCompletionRequestBuilder.new messages qdrant_url
        qdrant_collection_name limit).req.top_p = some 1 ∧
    (RagChatCompletionRequestBuilder.new messages qdrant_url
        qdrant_collection_name limit).req.n_choice = some 1 ∧
    (RagChatCompletionRequestBuilder.new messages qdrant_url
        qdrant_collection_name limit).req.stream = some false ∧
    (RagChatCompletionRequestBuilder.new messages qdrant_url
        qdrant_collection_name limit).req.max_tokens = some 1024 ∧
    (RagChatCompletionRequestBuilder.new messages qdrant_url
        qdrant_collection_name limit).req.presence_penalty = some 0 ∧
    (RagChatCompletionRequestBuilder.new messages qdrant_url
        qdrant_collection_name limit).req.frequency_penalty = some 0 ∧
    (RagChatCompletionRequestBuilder.new messages qdrant_url
        qdrant_collection_name limit).req.context_window = some 1 ∧
    (RagChatCompletionRequestBuilder.new messages qdrant_url
        qdrant_collection_name limit).req.messages = messages ∧
    (RagChatCompletionRequestBuilder.new messages qdrant_url
        qdrant_collection_name limit).req.qdrant_url = qdrant_url ∧
    (RagChatCompletionRequestBuilder.new messages qdrant_url
        qdrant_collection_name limit).req.qdrant_collection_name = qdrant_collection_name ∧
    (RagChatCompletionRequestBuilder.new messages qdrant_url
        qdrant_collection_name limit).req.limit = limit :=
  ⟨rfl, rfl, rfl, rfl, rfl, rfl, rfl, rfl, rfl, rfl, rfl, rfl, rfl, rfl, rfl⟩

/-- C7: `RagEmbeddingRequest::new` stores the placeholder embedding model,
the input texts verbatim (any list, empty included, is accepted), no
encoding format and no user; and the literal scenario serializes to exactly
the expected JSON text. -/
theorem claim_C7_embedding_new (input : List String) (url coll : String) :
    ((RagEmbeddingRequest.new input url coll).embedding_request.model =
        "dummy-embedding-model" ∧
     (RagEmbeddingRequest.new input url coll).embedding_request.input =
        InputText.multiple input ∧
     (RagEmbeddingRequest.new input url coll).embedding_request.encoding_format = none ∧
     (RagEmbeddingRequest.new input url coll).embedding_request.user = none ∧
     (RagEmbeddingRequest.new input url coll).qdrant_url = url ∧
     (RagEmbeddingRequest.new input url coll).qdrant_collection_name = coll) ∧
    Json.render (RagEmbeddingRequest.new ["Hello, world!"] "http://localhost:6333"
        "docs").toJson =
      "\x7b\"embeddings\":\x7b\"model\":\"dummy-embedding-model\",\"input\":[\"Hello, world!\"]\x7d,\"url\":\"http://localhost:6333\",\"collection_name\":\"docs\"\x7d" :=
  ⟨⟨rfl, rfl, rfl, rfl, rfl, rfl⟩, by decide⟩

/-- C2: serializing any valid `RagEmbeddingRequest`,
`RagChatCompletionsRequest`, `RetrieveObject` or `RagScoredPoint` value to
JSON and deserializing it back yields the original value (validity: `u64`
counters in range, and opaque optional chat values not the JSON `null`). -/
theorem claim_C2_serde_roundtrip (er : RagEmbeddingRequest)
    (r : RagChatCompletionsRequest) (ro : RetrieveObject) (p : RagScoredPoint)
    (hlim : r.limit < 2 ^ 64) (hn : ∀ n ∈ r.n_choice, n < 2 ^ 64)
    (hmax : ∀ n ∈ r.max_tokens, n < 2 ^ 64) (hcw : ∀ n ∈ r.context_window, n < 2 ^ 64)
    (hso : r.stream_options ≠ some Json.null) (hrf : r.response_format ≠ some Json.null)
    (htc : r.tool_choice ≠ some Json.null) (hro : ro.limit < 2 ^ 64) :
    RagEmbeddingRequest.fromJson er.toJson = some er ∧
    RagChatCompletionsRequest.fromJson r.toJson = some r ∧
    RetrieveObject.fromJson ro.toJson = some ro ∧
    RagScoredPoint.fromJson p.toJson = some p :=
  ⟨ragEmbeddingFromJson_toJson er,
   ragFromJson_toJson r hlim hn hmax hcw hso hrf htc,
   retrieveFromJson_toJson ro hro,
   scoredPointFromJson_toJson p⟩

/-- A concrete RAG chat request built with the builder defaults. -/
def sampleRagRequest : RagChatCompletionsRequest := sampleBuilder.build

/-- A concrete embedding request wrapper. -/
def sampleEmbeddingRequest : RagEmbeddingRequest :=
  RagEmbeddingRequest.new ["Hello, world!"] "http://localhost:6333" "docs"

/-- A concrete retrieval response with one scored point. -/
def sampleRetrieveObject : RetrieveObject :=
  { points := some [{ source := "source", score := 1 / 2 }]
    limit := 1
    score_threshold := 1 / 2 }

/-- A concrete scored point. -/
def samplePoint : RagScoredPoint := { source := "source", score := 1 / 2 }

/-- Witness for C2 at concrete values of all four types. -/
theorem claim_C2_serde_roundtrip_witness :
    RagEmbeddingRequest.fromJson sampleEmbeddingRequest.toJson = some sampleEmbeddingRequest ∧
    RagChatCompletionsRequest.fromJson sampleRagRequest.toJson = some sampleRagRequest ∧
    RetrieveObject.fromJson sampleRetrieveObject.toJson = some sampleRetrieveObject ∧
    RagScoredPoint.fromJson samplePoint.toJson = some samplePoint :=
  claim_C2_serde_roundtrip sampleEmbeddingRequest sampleRagRequest sampleRetrieveObject
    samplePoint (by decide)
    (fun n hn => by
      have e : (1 : Nat) = n := Option.some.inj hn
      subst e
      decide)
    (fun n hn => by
      have e : (1024 : Nat) = n := Option.some.inj hn
      subst e
      decide)
    (fun n hn => by
      have e : (1 : Nat) = n := Option.some.inj hn
      subst e
      decide)
    (fun h => nomatch h) (fun h => nomatch h) (fun h => nomatch h) (by decide)

/-- A RAG chat request with every optional field unset. -/
def emptyRagRequest : RagChatCompletionsRequest :=
  { chat_model := none
    messages := []
    embedding_model := "dummy-embedding-model"
    encoding_format := none
    qdrant_url := "http://localhost:6333"
    qdrant_collection_name := "docs"
    limit := 1
    temperature := none
    top_p := none
    n_choice := none
    stream := none
    stream_options := none
    stop := none
    max_tokens := none
    presence_penalty := none
    frequency_penalty := none
    logit_bias := none
    user := none
    response_format := none
    tools := none
    tool_choice := none
    context_window := none }

/-- A retrieval response with no points. -/
def emptyRetrieveObject : RetrieveObject :=
  { points := none, limit := 1, score_threshold := 1 / 2 }

/-- Falling through an absent head option leaves the lookup on the rest. -/
theorem opt_none_or {α : Type} (o : Option α) : Option.or none o = o := by
  cases o <;> rfl

/-- Counterexample for C8 as stated: `tools` is an optional (`Option`)
field, and a request with `tools` unset still serializes with a `tools`
key. -/
theorem claim_C8_counterexample :
    sampleRagRequest.tools = none ∧ sampleRagRequest.toJson.hasKey "tools" = true :=
  ⟨rfl, by decide⟩

/-- C8 (amended): every optional field of `RagChatCompletionsRequest`
except `tools` and `tool_choice`, and the `points` field of
`RetrieveObject`, never appears as a key in the serialized JSON when unset;
in particular an absent `encoding_format`, `points` or `chat_model`
produces no key. -/
theorem claim_C8_amended_omission (r : RagChatCompletionsRequest) (ro : RetrieveObject) :
    (r.chat_model = none → r.toJson.hasKey "chat_model" = false) ∧
    (r.encoding_format = none → r.toJson.hasKey "encoding_format" = false) ∧
    (r.temperature = none → r.toJson.hasKey "temperature" = false) ∧
    (r.top_p = none → r.toJson.hasKey "top_p" = false) ∧
    (r.n_choice = none → r.toJson.hasKey "n_choice" = false) ∧
    (r.stream = none → r.toJson.hasKey "stream" = false) ∧
    (r.stream_options = none → r.toJson.hasKey "stream_options" = false) ∧
    (r.stop = none → r.toJson.hasKey "stop" = false) ∧
    (r.max_tokens = none → r.toJson.hasKey "max_tokens" = false) ∧
    (r.presence_penalty = none → r.toJson.hasKey "presence_penalty" = false) ∧
    (r.frequency_penalty = none → r.toJson.hasKey "frequency_penalty" = false) ∧
    (r.logit_bias = none → r.toJson.hasKey "logit_bias" = false) ∧
    (r.user = none → r.toJson.hasKey "user" = false) ∧
    (r.response_format = none → r.toJson.hasKey "response_format" = false) ∧
    (r.context_window = none → r.toJson.hasKey "context_window" = false) ∧
    (ro.points = none → ro.toJson.hasKey "points" = false) := by
  refine ⟨fun h => ?_, fun h => ?_, fun h => ?_, fun h => ?_, fun h => ?_, fun h => ?_,
    fun h => ?_, fun h => ?_, fun h => ?_, fun h => ?_, fun h => ?_, fun h => ?_,
    fun h => ?_, fun h => ?_, fun h => ?_, fun h => ?_⟩ <;>
  simp [Json.hasKey, RagChatCompletionsRequest.toJson, RetrieveObject.toJson,
    RagChatCompletionsRequest.toJsonFields, Json.lookup_optCons, Json.lookup_cons,
    Json.lookup_nil, opt_none_or, h]

/-- Witness for the amended C8 at concrete values with the fields unset. -/
theorem claim_C8_amended_omission_witness :
    emptyRagRequest.toJson.hasKey "chat_model" = false ∧
    emptyRagRequest.toJson.hasKey "encoding_format" = false ∧
    emptyRetrieveObject.toJson.hasKey "points" = false :=
  ⟨(claim_C8_amended_omission emptyRagRequest emptyRetrieveObject).1 rfl,
   (claim_C8_amended_omission emptyRagRequest emptyRetrieveObject).2.1 rfl,
   (claim_C8_amended_omission emptyRagRequest
      emptyRetrieveObject).2.2.2.2.2.2.2.2.2.2.2.2.2.2.2 rfl⟩

/-- A negative JSON number is rejected by the `u64` parser. -/
theorem parseU64_neg (q : ℚ) (h : q < 0) : parseU64 (Json.num q) = none := by
  have hq : ¬ 0 ≤ q.num := by
    rw [Rat.num_nonneg]
    exact not_le.mpr h
  simp [parseU64, hq]

/-- A bind over an option whose continuation is constantly `none` is
`none`. -/
theorem opt_bind_const_none {α β : Type} (o : Option α) :
    (o.bind fun _ => (none : Option β)) = none := by
  cases o <;> rfl

/-- If the `limit` field of the JSON object holds a negative number, the
first field group fails to parse. -/
theorem ragParseA_neg_limit (fields : List (String × Json)) (q : ℚ) (hq : q < 0)
    (hl : Json.lookup fields "limit" = some (Json.num q)) :
    ragParseA fields = none := by
  simp [ragParseA, hl, reqParseStep_some, parseU64_neg q hq, opt_bind_const_none]

/-- If the `limit` field holds a negative number, deserializing a
`RetrieveObject` fails. -/
theorem retrieve_neg_limit (fields : List (String × Json)) (q : ℚ) (hq : q < 0)
    (hl : Json.lookup fields "limit" = some (Json.num q)) :
    RetrieveObject.fromJson (Json.obj fields) = none := by
  simp [RetrieveObject.fromJson, hl, reqParseStep_some, parseU64_neg q hq,
    opt_bind_const_none]

/-- C9: a JSON object whose unsigned counter field `limit` holds a negative
number fails to deserialize (into `RagChatCompletionsRequest` or
`RetrieveObject`), rather than being clamped to any value. -/
theorem claim_C9_negative_counters (fields1 fields2 : List (String × Json)) (q1 q2 : ℚ)
    (h1 : q1 < 0) (hl1 : Json.lookup fields1 "limit" = some (Json.num q1))
    (h2 : q2 < 0) (hl2 : Json.lookup fields2 "limit" = some (Json.num q2)) :
    RagChatCompletionsRequest.fromJson (Json.obj fields1) = none ∧
    RetrieveObject.fromJson (Json.obj fields2) = none := by
  constructor
  · simp [RagChatCompletionsRequest.fromJson, ragParseA_neg_limit fields1 q1 h1 hl1,
      opt_bind_const_none]
  · exact retrieve_neg_limit fields2 q2 h2 hl2

/-- Witness for C9 at the concrete input where `limit` is `-1`. -/
theorem claim_C9_negative_counters_witness :
    RagChatCompletionsRequest.fromJson (Json.obj [("limit", Json.num (-1))]) = none ∧
    RetrieveObject.fromJson (Json.obj [("limit", Json.num (-1))]) = none :=
  claim_C9_negative_counters [("limit", Json.num (-1))] [("limit", Json.num (-1))]
    (-1) (-1) (by decide) rfl (by decide) rfl

/-- C10: a request with `tools` and `tool_choice` unset still serializes
with both keys present, each holding the JSON `null` (all other unset
optional fields are omitted, see the omission theorems), and deserializing
the serialized request restores both fields as unset. -/
theorem claim_C10_tools_null_serialized (r : RagChatCompletionsRequest)
    (hlim : r.limit < 2 ^ 64) (hn : ∀ n ∈ r.n_choice, n < 2 ^ 64)
    (hmax : ∀ n ∈ r.max_tokens, n < 2 ^ 64) (hcw : ∀ n ∈ r.context_window, n < 2 ^ 64)
    (hso : r.stream_options ≠ some Json.null) (hrf : r.response_format ≠ some Json.null)
    (htools : r.tools = none) (htc : r.tool_choice = none) :
    Json.lookup r.toJsonFields "tools" = some Json.null ∧
    Json.lookup r.toJsonFields "tool_choice" = some Json.null ∧
    RagChatCompletionsRequest.fromJson r.toJson = some r := by
  refine ⟨?_, ?_, ?_⟩
  · simp [RagChatCompletionsRequest.toJsonFields, Json.lookup_optCons, Json.lookup_cons,
      Json.lookup_nil, htools, nullableField]
  · simp [RagChatCompletionsRequest.toJsonFields, Json.lookup_optCons, Json.lookup_cons,
      Json.lookup_nil, htc, nullableField]
  · exact ragFromJson_toJson r hlim hn hmax hcw hso hrf (by simp [htc])

/-- Witness for C10 at a concrete request with every optional field
unset. -/
theorem claim_C10_tools_null_serialized_witness :
    Json.lookup emptyRagRequest.toJsonFields "tools" = some Json.null ∧
    Json.lookup emptyRagRequest.toJsonFields "tool_choice" = some Json.null ∧
    RagChatCompletionsRequest.fromJson emptyRagRequest.toJson = some emptyRagRequest :=
  claim_C10_tools_null_serialized emptyRagRequest (by decide)
    (fun n hn => nomatch hn) (fun n hn => nomatch hn) (fun n hn => nomatch hn)
    (fun h => nomatch h) (fun h => nomatch h) rfl rfl
